import Mathlib

/-!
Shallow embedding of the email-Agent repository (src/utils.py) and proofs of
the specification claims about it.

The embedding models:
  * Python strings as Lean `String` (character-based slicing matches Python),
  * Python `dict` email records as a `Email` structure whose optional keys are
    `Option`-valued,
  * the Gemini SDK call as an abstract outcome (`LiveOutcome`): the whole
    `try` body of `call_llm` either produces a text result or raises, and the
    environment (`GOOGLE_API_KEY`, the network) is an explicit `Env` record,
  * `json.loads` as an executable fuel-based strict JSON parser `jsonLoads`
    over `List Char` (fuel = input length + 2, ample since every recursive
    descent consumes at least one character).
-/

namespace EmailAgent

/-- Python `str.isspace`: the Unicode whitespace set CPython's `str.strip()`
with no arguments removes — U+0009..U+000D, U+001C..U+001F, space, U+0085,
U+00A0, U+1680, U+2000..U+200A, U+2028, U+2029, U+202F, U+205F, U+3000. -/
def pyIsSpace (c : Char) : Bool :=
  c = '\t' || c = '\n' || c = '\x0b' || c = '\x0c' || c = '\r' ||
  c = '\x1c' || c = '\x1d' || c = '\x1e' || c = '\x1f' || c = ' ' ||
  c = '\x85' || c = '\xa0' || c = ' ' ||
  (' ' ≤ c && c ≤ ' ') ||
  c = ' ' || c = ' ' || c = ' ' || c = ' ' || c = '　'

/-- Python `s.strip()` with no arguments: remove leading and trailing
whitespace characters. -/
def pyStrip (s : String) : String :=
  String.mk (((s.toList.dropWhile pyIsSpace).reverse.dropWhile pyIsSpace).reverse)

/-- Python `s.strip(chars)`: remove leading and trailing characters belonging
to the set `chars`. -/
def pyStripChars (chars : String) (s : String) : String :=
  String.mk (((s.toList.dropWhile (chars.toList.contains ·)).reverse.dropWhile
    (chars.toList.contains ·)).reverse)

/-- One line-break step of Python `str.splitlines`. -/
def pyIsLineBreak (c : Char) : Bool :=
  c = '\n' || c = '\r' || c = '\x0b' || c = '\x0c' ||
  c = '\x1c' || c = '\x1d' || c = '\x1e' || c = '\x85' ||
  c = ' ' || c = ' '

/-- Worker for `pySplitlines`; `acc` holds the current line reversed. -/
def pySplitlinesAux : List Char → List Char → List String
  | [], acc => if acc.isEmpty then [] else [String.mk acc.reverse]
  | '\r' :: '\n' :: rest, acc => String.mk acc.reverse :: pySplitlinesAux rest []
  | c :: rest, acc =>
    if pyIsLineBreak c then String.mk acc.reverse :: pySplitlinesAux rest []
    else pySplitlinesAux rest (c :: acc)

/-- Python `s.splitlines()`: split at line boundaries (`\n`, `\r`, `\r\n`, and
the other Python line breaks), with no trailing empty line. -/
def pySplitlines (s : String) : List String :=
  pySplitlinesAux s.toList []

/-- Python rendering of an optional string inside an f-string:
`None` prints as `"None"`. -/
def pyShowOpt : Option String → String
  | none => "None"
  | some s => s

/-- Python `"sep".join(xs)`. -/
def pyJoin (sep : String) : List String → String
  | [] => ""
  | x :: rest => rest.foldl (fun acc y => acc ++ sep ++ y) x

/-- Worker for `pyReplace`: scan left to right, replacing each non-overlapping
occurrence of `pat`. `fuel` bounds the scan (input length suffices: every step
consumes at least one character when `pat` is nonempty). -/
def pyReplaceAux (pat rep : List Char) : Nat → List Char → List Char
  | _, [] => []
  | 0, cs => cs
  | fuel + 1, c :: cs =>
    if pat.isPrefixOf (c :: cs) then
      rep ++ pyReplaceAux pat rep fuel ((c :: cs).drop pat.length)
    else
      c :: pyReplaceAux pat rep fuel cs

/-- Python `s.replace(pat, rep)` for a nonempty `pat` (the source only replaces
the nonempty fence markers): replace every non-overlapping occurrence, left to
right. An empty `pat` leaves `s` unchanged. -/
def pyReplace (s pat rep : String) : String :=
  if pat.isEmpty then s
  else String.mk (pyReplaceAux pat.toList rep.toList s.toList.length s.toList)

/-- Python `s.startswith(p)`. -/
def pyStartsWith (s p : String) : Bool :=
  p.toList.isPrefixOf s.toList

/-- Python truthiness of an optional string: `None` and `""` are falsy. -/
def pyFalsyStr : Option String → Bool
  | none => true
  | some s => s.isEmpty

/-- Python values produced by `json.loads` (and the plain strings / lists the
interpreters build): `None`, booleans, numbers (kept as their source lexeme —
no claim inspects a numeric value), strings, lists, and dicts as ordered
key/value pair lists. -/
inductive Json where
  | null : Json
  | bool (b : Bool) : Json
  | num (lit : String) : Json
  | str (s : String) : Json
  | arr (elems : List Json) : Json
  | obj (fields : List (String × Json)) : Json

/-- JSON insignificant whitespace (RFC 8259, the set Python `json.loads`
skips). -/
def jsonWs (c : Char) : Bool :=
  c = ' ' || c = '\t' || c = '\n' || c = '\r'

/-- Skip insignificant JSON whitespace. -/
def skipWs (cs : List Char) : List Char :=
  cs.dropWhile jsonWs

/-- Hex digit value. -/
def hexVal (c : Char) : Option Nat :=
  if '0' ≤ c ∧ c ≤ '9' then some (c.toNat - '0'.toNat)
  else if 'a' ≤ c ∧ c ≤ 'f' then some (c.toNat - 'a'.toNat + 10)
  else if 'A' ≤ c ∧ c ≤ 'F' then some (c.toNat - 'A'.toNat + 10)
  else none

/-- Body of a JSON string literal after the opening quote; strict mode:
unescaped control characters below U+0020 are rejected. `\uXXXX` escapes map
to the corresponding scalar (surrogate pairing is not modelled; no claim
exercises it). -/
def parseStringBody : List Char → List Char → Option (String × List Char)
  | acc, '"' :: rest => some (String.mk acc.reverse, rest)
  | acc, '\\' :: e :: rest =>
    match e with
    | '"' => parseStringBody ('"' :: acc) rest
    | '\\' => parseStringBody ('\\' :: acc) rest
    | '/' => parseStringBody ('/' :: acc) rest
    | 'b' => parseStringBody ('\x08' :: acc) rest
    | 'f' => parseStringBody ('\x0c' :: acc) rest
    | 'n' => parseStringBody ('\n' :: acc) rest
    | 'r' => parseStringBody ('\r' :: acc) rest
    | 't' => parseStringBody ('\t' :: acc) rest
    | 'u' =>
      match rest with
      | h1 :: h2 :: h3 :: h4 :: rest2 =>
        match hexVal h1, hexVal h2, hexVal h3, hexVal h4 with
        | some a, some b, some c, some d =>
          parseStringBody (Char.ofNat (((a * 16 + b) * 16 + c) * 16 + d) :: acc) rest2
        | _, _, _, _ => none
      | _ => none
    | _ => none
  | acc, c :: rest =>
    if c.toNat < 0x20 then none else parseStringBody (c :: acc) rest
  | _, [] => none

/-- JSON number literal: `-?(0|[1-9][0-9]*)(\.[0-9]+)?([eE][+-]?[0-9]+)?`.
Returns the consumed lexeme and the remainder. -/
def parseNumber (cs : List Char) : Option (String × List Char) :=
  let (sign, cs1) := match cs with
    | '-' :: r => (['-'], r)
    | _ => (([] : List Char), cs)
  let intPart := cs1.takeWhile Char.isDigit
  let cs2 := cs1.dropWhile Char.isDigit
  if intPart.isEmpty then none
  else if intPart.length > 1 && intPart.headD '0' = '0' then none
  else
    let (fracPart, cs3) := match cs2 with
      | '.' :: r =>
        let ds := r.takeWhile Char.isDigit
        if ds.isEmpty then (none, cs2) else (some ('.' :: ds), r.dropWhile Char.isDigit)
      | _ => (none, cs2)
    match fracPart, cs2 with
    | none, '.' :: _ => none
    | _, _ =>
      let (expPart, cs4) : Option (List Char) × List Char := match cs3 with
        | e :: r =>
          if e = 'e' || e = 'E' then
            let (sgn, r2) := match r with
              | '+' :: r2 => (['+'], r2)
              | '-' :: r2 => (['-'], r2)
              | _ => (([] : List Char), r)
            let ds := r2.takeWhile Char.isDigit
            if ds.isEmpty then (none, cs3)
            else (some (e :: (sgn ++ ds)), r2.dropWhile Char.isDigit)
          else (none, cs3)
        | _ => (none, cs3)
      match cs3, expPart with
      | e :: _, none =>
        if e = 'e' || e = 'E' then none
        else some (String.mk (sign ++ intPart ++ (fracPart.getD []) ++ []), cs3)
      | _, _ =>
        some (String.mk (sign ++ intPart ++ (fracPart.getD []) ++ (expPart.getD [])), cs4)

mutual

/-- Parse one JSON value (after skipping leading whitespace), including the
non-standard constants `NaN`, `Infinity` and `-Infinity` that CPython's
`json.loads` accepts by default. Fuel-based recursion; the fuel bounds the
depth of the mutual call chain, and each character of input can contribute at
most three nested calls (value → array/object body → member list), so
`3 * length + 3` fuel always suffices. -/
def parseValue : Nat → List Char → Option (Json × List Char)
  | 0, _ => none
  | fuel + 1, cs =>
    match skipWs cs with
    | 'n' :: 'u' :: 'l' :: 'l' :: rest => some (.null, rest)
    | 't' :: 'r' :: 'u' :: 'e' :: rest => some (.bool true, rest)
    | 'f' :: 'a' :: 'l' :: 's' :: 'e' :: rest => some (.bool false, rest)
    | 'N' :: 'a' :: 'N' :: rest => some (.num "NaN", rest)
    | 'I' :: 'n' :: 'f' :: 'i' :: 'n' :: 'i' :: 't' :: 'y' :: rest =>
      some (.num "Infinity", rest)
    | '-' :: 'I' :: 'n' :: 'f' :: 'i' :: 'n' :: 'i' :: 't' :: 'y' :: rest =>
      some (.num "-Infinity", rest)
    | '"' :: rest => (parseStringBody [] rest).map (fun p => (.str p.1, p.2))
    | '[' :: rest => parseArrayBody fuel (skipWs rest)
    | '{' :: rest => parseObjectBody fuel (skipWs rest)
    | c :: rest =>
      if c = '-' || c.isDigit then
        (parseNumber (c :: rest)).map (fun p => (.num p.1, p.2))
      else none
    | [] => none

/-- Parse the inside of a JSON array, cursor just past `[` (whitespace
skipped). -/
def parseArrayBody : Nat → List Char → Option (Json × List Char)
  | 0, _ => none
  | fuel + 1, cs =>
    match cs with
    | ']' :: rest => some (.arr [], rest)
    | _ =>
      (parseArrayElems fuel cs).map (fun p => (.arr p.1, p.2))

/-- Parse one or more comma-separated array elements followed by `]`. -/
def parseArrayElems : Nat → List Char → Option (List Json × List Char)
  | 0, _ => none
  | fuel + 1, cs => do
    let (v, rest) ← parseValue fuel cs
    match skipWs rest with
    | ',' :: rest2 =>
      let (vs, rest3) ← parseArrayElems fuel rest2
      pure (v :: vs, rest3)
    | ']' :: rest2 => pure ([v], rest2)
    | _ => none

/-- Parse the inside of a JSON object, cursor just past `{` (whitespace
skipped). Fields keep their textual order; duplicate keys are kept (a Python
dict would keep the last occurrence — no claim exercises duplicates). -/
def parseObjectBody : Nat → List Char → Option (Json × List Char)
  | 0, _ => none
  | fuel + 1, cs =>
    match cs with
    | '}' :: rest => some (.obj [], rest)
    | _ =>
      (parseObjectMembers fuel cs).map (fun p => (.obj p.1, p.2))

/-- Parse one or more comma-separated `"key": value` members followed by `}`. -/
def parseObjectMembers : Nat → List Char → Option (List (String × Json) × List Char)
  | 0, _ => none
  | fuel + 1, cs => do
    let (k, rest) ← match skipWs cs with
      | '"' :: r => parseStringBody [] r
      | _ => none
    let rest2 ← match skipWs rest with
      | ':' :: r => pure r
      | _ => none
    let (v, rest3) ← parseValue fuel rest2
    match skipWs rest3 with
    | ',' :: rest4 =>
      let (kvs, rest5) ← parseObjectMembers fuel rest4
      pure ((k, v) :: kvs, rest5)
    | '}' :: rest4 => pure ([(k, v)], rest4)
    | _ => none

end

/-- Embedding of Python `json.loads` with its default flags: parse of the
whole document (including the default-accepted `NaN`/`Infinity`/`-Infinity`
constants), tolerating surrounding JSON whitespace; `none` models a raised
`json.JSONDecodeError`. -/
def jsonLoads (s : String) : Option Json :=
  match parseValue (3 * s.toList.length + 3) s.toList with
  | some (v, rest) => if skipWs rest = [] then some v else none
  | none => none

/-- An email record (a Python dict in the source). String-valued keys that the
code reads with `.get` may be absent, so they are `Option`-valued; `archived`
is a plain boolean (always present in the repository's data); `category` and
`action_items` are absent until the pipeline writes them. -/
structure Email where
  «from» : Option String := none
  «to» : Option String := none
  subject : Option String := none
  date : Option String := none
  body : Option String := none
  archived : Bool := false
  thread_id : Option String := none
  category : Option Json := none
  action_items : Option Json := none

/-- A prompt-store entry: `{"name": ..., "template": ...}`. -/
structure PromptEntry where
  name : String
  template : String

/-- The prompts dict, as an ordered key/entry association list. -/
abbrev Prompts := List (String × PromptEntry)

/-- Python `prompts[key]`: `none` models a raised `KeyError(key)`. -/
def lookupPrompt (ps : Prompts) (k : String) : Option PromptEntry :=
  match ps.find? (fun p => p.1 = k) with
  | some p => some p.2
  | none => none

/-- The `"categorize"` entry of `DEFAULT_PROMPTS`. -/
def categorizeEntry : PromptEntry :=
  { name := "Categorize Email",
    template := "Categorize this email and respond ONLY in JSON.\n\x7b\n  \"labels\": [\"...\"],\n  \"priority\": \"low/medium/high\",\n  \"summary\": \"short summary\"\n\x7d" }

/-- The `"extract_actions"` entry of `DEFAULT_PROMPTS`. -/
def extractActionsEntry : PromptEntry :=
  { name := "Extract Action Items",
    template := "Extract action items from this email. Respond in JSON array.\n[ \"task 1\", \"task 2\", ... ]" }

/-- The `"draft_reply"` entry of `DEFAULT_PROMPTS`. -/
def draftReplyEntry : PromptEntry :=
  { name := "Draft Reply",
    template := "Draft a polite, concise reply.\nAddress the sender, mention key points, and propose next steps.\nKeep it under 180 words." }

/-- The `"chat"` entry of `DEFAULT_PROMPTS`. -/
def chatEntry : PromptEntry :=
  { name := "Chat about email",
    template := "You are an assistant that answers user questions based strictly on the email content. Be concise." }

/-- `DEFAULT_PROMPTS` from utils.py. -/
def DEFAULT_PROMPTS : Prompts :=
  [("categorize", categorizeEntry),
   ("extract_actions", extractActionsEntry),
   ("draft_reply", draftReplyEntry),
   ("chat", chatEntry)]

/-- `get_sample_inbox` from utils.py. -/
def get_sample_inbox : List Email :=
  [{ «from» := some "alice@company.com", «to» := some "you@company.com",
     subject := some "Request: Q2 marketing budget approval",
     date := some "2025-09-01",
     body := some "Hi,\n\nCan you approve the Q2 marketing budget? We need a decision by Friday. Attached are the numbers.\n\nThanks,\nAlice",
     archived := false },
   { «from» := some "bob@startup.com", «to» := some "you@company.com",
     subject := some "Meeting: Product sync (tomorrow)",
     date := some "2025-10-20",
     body := some "Hello,\n\nCan we meet tomorrow at 10am to sync on the product roadmap? Please confirm or propose another time.\n\nRegards,\nBob",
     archived := false },
   { «from» := some "carol@vendor.com", «to» := some "you@company.com",
     subject := some "Invoice INV-2025-017 (overdue)",
     date := some "2025-10-15",
     body := some "Dear team,\n\nInvoice INV-2025-017 is overdue by 10 days. Please arrange payment or contact us.\n\nBest,\nCarol",
     archived := false },
   { «from» := some "dave@partner.org", «to» := some "you@company.com",
     subject := some "Collaboration opportunity - quick chat?",
     date := some "2025-10-01",
     body := some "Hi,\n\nWe have a potential collaboration. Interested in a 20-min call next week?\n\nThanks,\nDave",
     archived := false }]

/-- Outcome of the `try` body of `call_llm` on the live path (the Gemini SDK
call plus the three-step text extraction, lines 134-157 of utils.py): either
it runs to completion with a text result, or some exception `e` is raised
inside it (modelled by the string `str(e)`). -/
inductive LiveOutcome where
  | ok (text : String)
  | exn (msg : String)

/-- The ambient execution environment of `call_llm`: the value of
`os.getenv("GOOGLE_API_KEY")` and the behaviour of the live SDK call for each
(prompt, temperature, max_output_tokens) triple. -/
structure Env where
  apiKey : Option String
  liveCall : String → ℚ → Int → LiveOutcome

/-- Python truthiness test `if not api_key` (`None` and `""` are falsy). -/
def apiKeyMissing (k : Option String) : Bool :=
  match k with
  | none => true
  | some s => s.isEmpty

/-- `call_llm` (utils.py lines 127-160): mock response when no key is
configured, otherwise the live outcome, with any exception converted to an
`[ERROR]`-prefixed string. -/
def call_llm (env : Env) (prompt : String) (temperature : ℚ := 2/10)
    (max_output_tokens : Int := 300) : String :=
  if apiKeyMissing env.apiKey then
    "[MOCK RESPONSE] " ++ prompt.take 150 ++ "..."
  else
    match env.liveCall prompt temperature max_output_tokens with
    | .ok text => text
    | .exn e => "[ERROR] Gemini SDK call failed: " ++ e

/-- `email.get("body", "")`. -/
def bodyOrEmpty (email : Email) : String :=
  email.body.getD ""

/-- `categorize_email` (utils.py lines 166-179): build the prompt, call the
gateway, drop markdown fences, then strict-JSON-parse the cleaned text,
falling back to `{"text": out}`. -/
def categorize_email (env : Env) (email : Email) (prompt_template : String)
    (temperature : ℚ := 2/10) (max_output_tokens : Int := 300) : Json :=
  let prompt := prompt_template ++ "\n\nEmail:\n" ++ bodyOrEmpty email
  let out := call_llm env prompt temperature max_output_tokens
  let cleaned := pyStrip (pyReplace (pyReplace out "```json" "") "```" "")
  match jsonLoads cleaned with
  | some parsed => parsed
  | none => Json.obj [("text", Json.str out)]

/-- `extract_actions` (utils.py lines 186-199): JSON-array detection on the
trimmed output, else the non-blank-line bullet fallback. The JSON branch
returns whatever `json.loads` produced. -/
def extract_actions (env : Env) (email : Email) (prompt_template : String)
    (temperature : ℚ := 2/10) (max_output_tokens : Int := 300) : Json :=
  let prompt := prompt_template ++ "\n\nEMAIL:\n" ++ bodyOrEmpty email
  let out := call_llm env prompt temperature max_output_tokens
  let fallback := Json.arr
    (((pySplitlines out).filter (fun l => !(pyStrip l).isEmpty)).map
      (fun l => Json.str (pyStripChars " -•\t" l)))
  if pyStartsWith (pyStrip out) "[" then
    match jsonLoads out with
    | some v => v
    | none => fallback
  else fallback

/-- `draft_reply` (utils.py lines 205-214): prompt assembly with an optional
thread-context section, then trim the gateway output. -/
def draft_reply (env : Env) (email : Email) (prompt_template : String)
    (temperature : ℚ := 2/10) (max_output_tokens : Int := 300)
    (thread_context : Option String := none) : String :=
  let prompt := prompt_template ++ "\n\nEMAIL:\n" ++ bodyOrEmpty email
  let prompt :=
    if pyFalsyStr thread_context then prompt
    else prompt ++ "\n\nTHREAD CONTEXT:\n" ++ thread_context.getD ""
  pyStrip (call_llm env prompt temperature max_output_tokens)

/-- The per-message block `collect_thread_context` formats:
`f"FROM: {m.get('from')}\nDATE: {m.get('date')}\n{m.get('body')}\n---\n"`. -/
def threadBlock (m : Email) : String :=
  "FROM: " ++ pyShowOpt m.«from» ++ "\nDATE: " ++ pyShowOpt m.date ++ "\n" ++
    pyShowOpt m.body ++ "\n---\n"

/-- `collect_thread_context` (utils.py lines 220-230): `None` for a falsy
thread id, else join the blocks of the matching messages, `None` when there
are none. -/
def collect_thread_context (inbox : List Email) (thread_id : Option String) :
    Option String :=
  if pyFalsyStr thread_id then none
  else
    let msgs := (inbox.filter (fun m => m.thread_id == thread_id)).map threadBlock
    if msgs.isEmpty then none else some (pyJoin "\n" msgs)

/-- A record appended to `results` by `run_ingestion_pipeline`: either
`{"email_idx": idx, "category": ..., "action_items": ...}` or
`{"email_idx": idx, "error": str(e)}`. -/
inductive ResultRec where
  | ok (email_idx : Nat) (category : Json) (action_items : Json)
  | error (email_idx : Nat) (error : String)

/-- The `email_idx` field of a result record. -/
def ResultRec.idx : ResultRec → Nat
  | .ok i _ _ => i
  | .error i _ => i

/-- The body of the `for idx, email in enumerate(inbox)` loop of
`run_ingestion_pipeline` for one email: look up the two templates (a missing
key raises `KeyError`, whose `str` is the quoted key), run both interpreters,
write `category` and `action_items` onto the email, and build the result
record; any exception yields an error record and leaves the email untouched. -/
def pipelineStep (env : Env) (prompts : Prompts) (temperature : ℚ)
    (max_output_tokens : Int) (idx : Nat) (email : Email) : Email × ResultRec :=
  match lookupPrompt prompts "categorize" with
  | none => (email, .error idx "\x27categorize\x27")
  | some catEntry =>
    match lookupPrompt prompts "extract_actions" with
    | none => (email, .error idx "\x27extract_actions\x27")
    | some actEntry =>
      let category := categorize_email env email catEntry.template temperature max_output_tokens
      let actions := extract_actions env email actEntry.template temperature max_output_tokens
      ({ email with category := some category, action_items := some actions },
       .ok idx category actions)

/-- The pipeline loop from position `idx` on: processes each email in order,
collecting the updated inbox and the result records. -/
def runIngestionAux (env : Env) (prompts : Prompts) (temperature : ℚ)
    (max_output_tokens : Int) : Nat → List Email → List Email × List ResultRec
  | _, [] => ([], [])
  | idx, e :: rest =>
    let step := pipelineStep env prompts temperature max_output_tokens idx e
    let tail := runIngestionAux env prompts temperature max_output_tokens (idx + 1) rest
    (step.1 :: tail.1, step.2 :: tail.2)

/-- `run_ingestion_pipeline` (utils.py lines 236-269): categorize + extract
for every email, in stored order; in-place mutation is modelled by returning
the updated inbox. -/
def run_ingestion_pipeline (env : Env) (inbox : List Email) (prompts : Prompts)
    (temperature : ℚ := 2/10) (max_output_tokens : Int := 300) :
    List Email × List ResultRec :=
  runIngestionAux env prompts temperature max_output_tokens 0 inbox

/-- An environment with no configured credential (`GOOGLE_API_KEY` unset):
`call_llm` takes the mock path; the live call, never reached, would raise. -/
def envMock : Env :=
  { apiKey := none, liveCall := fun _ _ _ => .exn "network unreachable" }

/-- A live-mode environment whose SDK call always returns `out`. -/
def envConst (out : String) : Env :=
  { apiKey := some "key", liveCall := fun _ _ _ => .ok out }

/-- A live-mode environment whose SDK call always raises with message `msg`. -/
def envExn (msg : String) : Env :=
  { apiKey := some "key", liveCall := fun _ _ _ => .exn msg }

/-- A small concrete email used to instantiate the proved claims. -/
def emailX : Email :=
  { «from» := some "alice@company.com", body := some "Hi" }

/-- Gateway output wrapping the spec's category object in markdown fences. -/
def fencedCategoryOut : String :=
  "```json\n\x7b\"labels\":[],\"priority\":\"low\",\"summary\":\"x\"\x7d\n```"

/-- Gateway output that is not valid JSON as a whole (the fences), but whose
fence-stripped, trimmed form `"\x7b\x7d"` is the valid empty JSON object. -/
def fencedEmptyObj : String :=
  "```json\n\x7b\x7d\n```"

/-- First message of the `t1` thread. -/
def tEmail1 : Email :=
  { «from» := some "a@b", date := some "2025-01-01", body := some "hello",
    thread_id := some "t1" }

/-- Second message of the `t1` thread (sender and date absent). -/
def tEmail2 : Email :=
  { body := some "again", thread_id := some "t1" }

/-- A message on an unrelated thread. -/
def tEmail3 : Email :=
  { body := some "other", thread_id := some "t2" }

/-- A three-message inbox holding the two-message `t1` thread in stored order
with an unrelated message between them. -/
def threadInbox : List Email :=
  [tEmail1, tEmail3, tEmail2]

/-! ## Helper lemmas about the pipeline loop -/

/-- Both outputs of the ingestion loop have the inbox's length. -/
theorem runIngestionAux_length (env : Env) (ps : Prompts) (t : ℚ) (m : Int)
    (l : List Email) : ∀ idx : Nat,
    (runIngestionAux env ps t m idx l).1.length = l.length ∧
    (runIngestionAux env ps t m idx l).2.length = l.length := by
  induction l with
  | nil => intro idx; simp [runIngestionAux]
  | cons e rest ih =>
    intro idx
    simp [runIngestionAux, (ih (idx + 1)).1, (ih (idx + 1)).2]

/-- Entry `i` of each loop output is the step applied to inbox entry `i` (with
the loop counter shifted by the starting index). -/
theorem runIngestionAux_getElem? (env : Env) (ps : Prompts) (t : ℚ) (m : Int)
    (l : List Email) : ∀ idx i : Nat,
    (runIngestionAux env ps t m idx l).1[i]? =
      (l[i]?).map (fun e => (pipelineStep env ps t m (idx + i) e).1) ∧
    (runIngestionAux env ps t m idx l).2[i]? =
      (l[i]?).map (fun e => (pipelineStep env ps t m (idx + i) e).2) := by
  induction l with
  | nil => intro idx i; simp [runIngestionAux]
  | cons e rest ih =>
    intro idx i
    cases i with
    | zero => simp [runIngestionAux]
    | succ j =>
      have h := ih (idx + 1) j
      constructor
      · simpa [runIngestionAux, Nat.add_assoc, Nat.add_comm 1 j] using h.1
      · simpa [runIngestionAux, Nat.add_assoc, Nat.add_comm 1 j] using h.2

/-- The result record built for position `idx` carries `email_idx = idx`. -/
theorem pipelineStep_snd_idx (env : Env) (ps : Prompts) (t : ℚ) (m : Int)
    (idx : Nat) (e : Email) :
    ((pipelineStep env ps t m idx e).2).idx = idx := by
  unfold pipelineStep
  cases lookupPrompt ps "categorize" with
  | none => simp [ResultRec.idx]
  | some pc =>
    cases lookupPrompt ps "extract_actions" with
    | none => simp [ResultRec.idx]
    | some pa => simp [ResultRec.idx]

/-- The `email_idx` fields of the result records are the consecutive indices
starting at the loop's starting index. -/
theorem runIngestionAux_map_idx (env : Env) (ps : Prompts) (t : ℚ) (m : Int)
    (l : List Email) : ∀ idx : Nat,
    (runIngestionAux env ps t m idx l).2.map ResultRec.idx =
      List.range' idx l.length := by
  induction l with
  | nil => intro idx; simp [runIngestionAux]
  | cons e rest ih =>
    intro idx
    simp [runIngestionAux, List.range'_succ, pipelineStep_snd_idx, ih (idx + 1)]

/-! ## C3: the gateway never raises -/

/-- C3: for every prompt, temperature, and token budget, `call_llm` is a total
function into strings: either the mock path is taken, or the live call
succeeded and its text is returned, or the live call raised and the result is
the exception converted to a string prefixed with `[ERROR]`. -/
theorem C3_call_llm_never_raises (env : Env) (p : String) (t : ℚ) (m : Int) :
    (apiKeyMissing env.apiKey = true ∧
      call_llm env p t m = "[MOCK RESPONSE] " ++ p.take 150 ++ "...") ∨
    (∃ s, env.liveCall p t m = .ok s ∧ call_llm env p t m = s) ∨
    (∃ e, env.liveCall p t m = .exn e ∧
      call_llm env p t m = "[ERROR] Gemini SDK call failed: " ++ e ∧
      call_llm env p t m = "[ERROR]" ++ (" Gemini SDK call failed: " ++ e)) := by
  cases hk : apiKeyMissing env.apiKey with
  | true => exact Or.inl ⟨rfl, by simp [call_llm, hk]⟩
  | false =>
    right
    cases ho : env.liveCall p t m with
    | ok s => exact Or.inl ⟨s, rfl, by simp [call_llm, hk, ho]⟩
    | exn e =>
      refine Or.inr ⟨e, rfl, by simp [call_llm, hk, ho], ?_⟩
      simp [call_llm, hk, ho]
      rfl

/-! ## C8: mock-mode determinism -/

/-- C8: with no credential configured, the gateway output is a deterministic
function of the first 150 characters of the prompt: two prompts agreeing on
their first 150 characters give identical outputs, and each output is the
prompt prefix wrapped with the mock marker. -/
theorem C8_mock_mode_deterministic (env : Env) (p q : String) (t1 t2 : ℚ)
    (m1 m2 : Int) (hk : apiKeyMissing env.apiKey = true)
    (hpq : p.take 150 = q.take 150) :
    call_llm env p t1 m1 = call_llm env q t2 m2 ∧
    call_llm env p t1 m1 = "[MOCK RESPONSE] " ++ p.take 150 ++ "..." := by
  constructor
  · simp [call_llm, hk, hpq]
  · simp [call_llm, hk]

/-- Witness for C8 at a concrete mock environment and prompt. -/
theorem C8_witness :
    call_llm envMock "hello world" 0 5 = call_llm envMock "hello world" 1 7 ∧
    call_llm envMock "hello world" 0 5 =
      "[MOCK RESPONSE] " ++ "hello world".take 150 ++ "..." :=
  C8_mock_mode_deterministic envMock "hello world" "hello world" 0 1 5 7 rfl rfl

/-! ## C1/C2: shape and failure policy of the ingestion pipeline -/

/-- With both templates present, one pipeline step writes the category and
action items onto the email and records them at the email's index. -/
theorem pipelineStep_ok (env : Env) (ps : Prompts) (t : ℚ) (m : Int)
    (idx : Nat) (e : Email) (pc pa : PromptEntry)
    (hc : lookupPrompt ps "categorize" = some pc)
    (ha : lookupPrompt ps "extract_actions" = some pa) :
    pipelineStep env ps t m idx e =
      ({ e with category := some (categorize_email env e pc.template t m),
                action_items := some (extract_actions env e pa.template t m) },
       .ok idx (categorize_email env e pc.template t m)
         (extract_actions env e pa.template t m)) := by
  simp [pipelineStep, hc, ha]

/-- With the `categorize` template missing, one pipeline step leaves the email
untouched and records the `KeyError` message. -/
theorem pipelineStep_err_cat (env : Env) (ps : Prompts) (t : ℚ) (m : Int)
    (idx : Nat) (e : Email) (hc : lookupPrompt ps "categorize" = none) :
    pipelineStep env ps t m idx e = (e, .error idx "\x27categorize\x27") := by
  simp [pipelineStep, hc]

/-- With `categorize` present but `extract_actions` missing, one pipeline step
leaves the email untouched — in particular no `category` is written — and
records the `KeyError` message. -/
theorem pipelineStep_err_act (env : Env) (ps : Prompts) (t : ℚ) (m : Int)
    (idx : Nat) (e : Email) (pc : PromptEntry)
    (hc : lookupPrompt ps "categorize" = some pc)
    (ha : lookupPrompt ps "extract_actions" = none) :
    pipelineStep env ps t m idx e = (e, .error idx "\x27extract_actions\x27") := by
  simp [pipelineStep, hc, ha]

/-- C1: on an inbox of N emails and a prompts store holding both the
`categorize` and `extract_actions` keys, the pipeline returns exactly N
records whose `email_idx` values are the distinct indices 0..N-1 in order, and
for each index the record holds the category and action items and the
corresponding returned email has both its `category` and `action_items` fields
set to them (the success arm of the claim's disjunction — with both templates
present no per-email exception arises in the embedding). -/
theorem C1_pipeline_shape (env : Env) (inbox : List Email) (ps : Prompts)
    (t : ℚ) (m : Int) (pc pa : PromptEntry)
    (hc : lookupPrompt ps "categorize" = some pc)
    (ha : lookupPrompt ps "extract_actions" = some pa) :
    (run_ingestion_pipeline env inbox ps t m).2.length = inbox.length ∧
    (run_ingestion_pipeline env inbox ps t m).2.map ResultRec.idx =
      List.range inbox.length ∧
    ∀ i : Nat, ∀ e : Email, inbox[i]? = some e →
      (run_ingestion_pipeline env inbox ps t m).2[i]? =
        some (.ok i (categorize_email env e pc.template t m)
          (extract_actions env e pa.template t m)) ∧
      (run_ingestion_pipeline env inbox ps t m).1[i]? =
        some { e with
          category := some (categorize_email env e pc.template t m),
          action_items := some (extract_actions env e pa.template t m) } := by
  refine ⟨(runIngestionAux_length env ps t m inbox 0).2, ?_, ?_⟩
  · rw [run_ingestion_pipeline, runIngestionAux_map_idx, List.range_eq_range']
  · intro i e he
    have h := runIngestionAux_getElem? env ps t m inbox 0 i
    have hstep := pipelineStep_ok env ps t m (0 + i) e pc pa hc ha
    constructor
    · rw [run_ingestion_pipeline, h.2, he, Option.map_some', hstep]
      simp
    · rw [run_ingestion_pipeline, h.1, he, Option.map_some', hstep]

/-- Witness for C1 on a one-email inbox with the default prompt store under
the mock gateway. -/
theorem C1_witness :
    (run_ingestion_pipeline envMock [emailX] DEFAULT_PROMPTS (2/10) 300).2.length =
      [emailX].length ∧
    (run_ingestion_pipeline envMock [emailX] DEFAULT_PROMPTS (2/10) 300).2.map
      ResultRec.idx = List.range [emailX].length ∧
    (run_ingestion_pipeline envMock [emailX] DEFAULT_PROMPTS (2/10) 300).2[0]? =
      some (.ok 0 (categorize_email envMock emailX categorizeEntry.template (2/10) 300)
        (extract_actions envMock emailX extractActionsEntry.template (2/10) 300)) ∧
    (run_ingestion_pipeline envMock [emailX] DEFAULT_PROMPTS (2/10) 300).1[0]? =
      some { emailX with
        category := some (categorize_email envMock emailX categorizeEntry.template (2/10) 300),
        action_items := some (extract_actions envMock emailX extractActionsEntry.template (2/10) 300) } := by
  have h := C1_pipeline_shape envMock [emailX] DEFAULT_PROMPTS (2/10) 300
    categorizeEntry extractActionsEntry rfl rfl
  exact ⟨h.1, h.2.1, (h.2.2 0 emailX rfl).1, (h.2.2 0 emailX rfl).2⟩

/-- C2: a per-email exception is caught at per-email granularity. In the
embedding the only raising operations inside the loop body are the two
template lookups (`KeyError`); both interpreter calls are total because the
gateway converts exceptions to strings. Whichever lookup fails, the failing
email is returned unmodified — in particular `category` is not written when
the `extract_actions` lookup fails — a record with that email's index and the
exception message is appended in its place, and the batch still produces one
record per email; the pipeline itself is a total function (never raises). -/
theorem C2_per_email_failure (env : Env) (inbox : List Email) (ps : Prompts)
    (t : ℚ) (m : Int) (idx : Nat) (e : Email)
    (he : inbox[idx]? = some e) :
    (run_ingestion_pipeline env inbox ps t m).2.length = inbox.length ∧
    (lookupPrompt ps "categorize" = none →
      (run_ingestion_pipeline env inbox ps t m).2[idx]? =
        some (.error idx "\x27categorize\x27") ∧
      (run_ingestion_pipeline env inbox ps t m).1[idx]? = some e) ∧
    (∀ pc : PromptEntry, lookupPrompt ps "categorize" = some pc →
      lookupPrompt ps "extract_actions" = none →
      (run_ingestion_pipeline env inbox ps t m).2[idx]? =
        some (.error idx "\x27extract_actions\x27") ∧
      (run_ingestion_pipeline env inbox ps t m).1[idx]? = some e) := by
  have h := runIngestionAux_getElem? env ps t m inbox 0 idx
  refine ⟨(runIngestionAux_length env ps t m inbox 0).2, ?_, ?_⟩
  · intro hc
    have hstep := pipelineStep_err_cat env ps t m (0 + idx) e hc
    constructor
    · rw [run_ingestion_pipeline, h.2, he, Option.map_some', hstep]
      simp
    · rw [run_ingestion_pipeline, h.1, he, Option.map_some', hstep]
  · intro pc hc ha
    have hstep := pipelineStep_err_act env ps t m (0 + idx) e pc hc ha
    constructor
    · rw [run_ingestion_pipeline, h.2, he, Option.map_some', hstep]
      simp
    · rw [run_ingestion_pipeline, h.1, he, Option.map_some', hstep]

/-- Witness for C2: a one-email inbox run once against an empty prompt store
(`categorize` missing) and once against a store holding only `categorize`
(`extract_actions` missing). -/
theorem C2_witness :
    (run_ingestion_pipeline envMock [emailX] [] (2/10) 300).2.length =
      [emailX].length ∧
    (run_ingestion_pipeline envMock [emailX] [] (2/10) 300).2[0]? =
      some (.error 0 "\x27categorize\x27") ∧
    (run_ingestion_pipeline envMock [emailX] [] (2/10) 300).1[0]? = some emailX ∧
    (run_ingestion_pipeline envMock [emailX]
      [("categorize", categorizeEntry)] (2/10) 300).2[0]? =
      some (.error 0 "\x27extract_actions\x27") ∧
    (run_ingestion_pipeline envMock [emailX]
      [("categorize", categorizeEntry)] (2/10) 300).1[0]? = some emailX := by
  have h1 := C2_per_email_failure envMock [emailX] [] (2/10) 300 0 emailX rfl
  have h2 := C2_per_email_failure envMock [emailX]
    [("categorize", categorizeEntry)] (2/10) 300 0 emailX rfl
  exact ⟨h1.1, (h1.2.1 rfl).1, (h1.2.1 rfl).2,
    (h2.2.2 categorizeEntry rfl rfl).1, (h2.2.2 categorizeEntry rfl rfl).2⟩

/-! ## C9/C10: idempotence and frame of the pipeline -/

/-- One pipeline step never changes any email field other than `category` and
`action_items`. -/
theorem pipelineStep_fst_frame (env : Env) (ps : Prompts) (t : ℚ) (m : Int)
    (idx : Nat) (e : Email) :
    ((pipelineStep env ps t m idx e).1).«from» = e.«from» ∧
    ((pipelineStep env ps t m idx e).1).«to» = e.«to» ∧
    ((pipelineStep env ps t m idx e).1).subject = e.subject ∧
    ((pipelineStep env ps t m idx e).1).date = e.date ∧
    ((pipelineStep env ps t m idx e).1).body = e.body ∧
    ((pipelineStep env ps t m idx e).1).archived = e.archived ∧
    ((pipelineStep env ps t m idx e).1).thread_id = e.thread_id := by
  cases hc : lookupPrompt ps "categorize" with
  | none => simp [pipelineStep, hc]
  | some pc =>
    cases ha : lookupPrompt ps "extract_actions" with
    | none => simp [pipelineStep, hc, ha]
    | some pa => simp [pipelineStep, hc, ha]

/-- Recomputing a step on an already-processed email reproduces both the email
and the record: the step reads only the email's body, which it never writes. -/
theorem pipelineStep_idem (env : Env) (ps : Prompts) (t : ℚ) (m : Int)
    (idx : Nat) (e : Email) :
    pipelineStep env ps t m idx (pipelineStep env ps t m idx e).1 =
      pipelineStep env ps t m idx e := by
  cases hc : lookupPrompt ps "categorize" with
  | none => simp [pipelineStep, hc]
  | some pc =>
    cases ha : lookupPrompt ps "extract_actions" with
    | none => simp [pipelineStep, hc, ha]
    | some pa =>
      obtain ⟨f, o, sub, d, b, ar, th, cat, act⟩ := e
      simp [pipelineStep, hc, ha, categorize_email, extract_actions, bodyOrEmpty]

/-- Re-running the pipeline loop on its own output reproduces both the inbox
and the records. -/
theorem runIngestionAux_idem (env : Env) (ps : Prompts) (t : ℚ) (m : Int)
    (l : List Email) : ∀ idx : Nat,
    runIngestionAux env ps t m idx (runIngestionAux env ps t m idx l).1 =
      runIngestionAux env ps t m idx l := by
  induction l with
  | nil => intro idx; simp [runIngestionAux]
  | cons e rest ih =>
    intro idx
    simp [runIngestionAux, pipelineStep_idem, ih (idx + 1)]

/-- C9: re-running the pipeline on an inbox it has already processed
overwrites `category` and `action_items` unconditionally per run rather than
merging: each prompt depends only on the template and the email body, which
the pipeline never changes, so under the deterministic mock gateway running
the pipeline on its own output reproduces the same inbox (and the same result
records) as a single run. -/
theorem C9_pipeline_idempotent (env : Env) (inbox : List Email) (ps : Prompts)
    (t : ℚ) (m : Int) (_hk : apiKeyMissing env.apiKey = true) :
    run_ingestion_pipeline env (run_ingestion_pipeline env inbox ps t m).1 ps t m =
      run_ingestion_pipeline env inbox ps t m :=
  runIngestionAux_idem env ps t m inbox 0

/-- Witness for C9 on a one-email inbox with the default prompt store under
the mock gateway. -/
theorem C9_witness :
    run_ingestion_pipeline envMock
        (run_ingestion_pipeline envMock [emailX] DEFAULT_PROMPTS (2/10) 300).1
        DEFAULT_PROMPTS (2/10) 300 =
      run_ingestion_pipeline envMock [emailX] DEFAULT_PROMPTS (2/10) 300 :=
  C9_pipeline_idempotent envMock [emailX] DEFAULT_PROMPTS (2/10) 300 rfl

/-- C10: the pipeline modifies only the `category` and `action_items` fields:
the returned inbox has the same length (no email added or removed), the email
at every position corresponds to the input email at that same position (order
kept), and all its other fields — sender, recipient, subject, date, body,
archived flag, thread id — are unchanged. -/
theorem C10_pipeline_frame (env : Env) (inbox : List Email) (ps : Prompts)
    (t : ℚ) (m : Int) :
    (run_ingestion_pipeline env inbox ps t m).1.length = inbox.length ∧
    ∀ i : Nat, ∀ e e' : Email, inbox[i]? = some e →
      (run_ingestion_pipeline env inbox ps t m).1[i]? = some e' →
      e'.«from» = e.«from» ∧ e'.«to» = e.«to» ∧ e'.subject = e.subject ∧
      e'.date = e.date ∧ e'.body = e.body ∧ e'.archived = e.archived ∧
      e'.thread_id = e.thread_id := by
  refine ⟨(runIngestionAux_length env ps t m inbox 0).1, ?_⟩
  intro i e e' he he'
  rw [run_ingestion_pipeline, (runIngestionAux_getElem? env ps t m inbox 0 i).1,
    he, Option.map_some'] at he'
  obtain rfl : (pipelineStep env ps t m (0 + i) e).1 = e' := Option.some_inj.mp he'
  exact pipelineStep_fst_frame env ps t m (0 + i) e

/-- Witness for C10 on a one-email inbox with the default prompt store under
the mock gateway: the processed head email keeps every field of the input
email except the two the pipeline writes. -/
theorem C10_witness :
    (run_ingestion_pipeline envMock [emailX] DEFAULT_PROMPTS (2/10) 300).1.length =
      [emailX].length ∧
    (((run_ingestion_pipeline envMock [emailX] DEFAULT_PROMPTS (2/10) 300).1.headD
        {}).«from» = emailX.«from» ∧
      ((run_ingestion_pipeline envMock [emailX] DEFAULT_PROMPTS (2/10) 300).1.headD
        {}).«to» = emailX.«to» ∧
      ((run_ingestion_pipeline envMock [emailX] DEFAULT_PROMPTS (2/10) 300).1.headD
        {}).subject = emailX.subject ∧
      ((run_ingestion_pipeline envMock [emailX] DEFAULT_PROMPTS (2/10) 300).1.headD
        {}).date = emailX.date ∧
      ((run_ingestion_pipeline envMock [emailX] DEFAULT_PROMPTS (2/10) 300).1.headD
        {}).body = emailX.body ∧
      ((run_ingestion_pipeline envMock [emailX] DEFAULT_PROMPTS (2/10) 300).1.headD
        {}).archived = emailX.archived ∧
      ((run_ingestion_pipeline envMock [emailX] DEFAULT_PROMPTS (2/10) 300).1.headD
        {}).thread_id = emailX.thread_id) :=
  ⟨(C10_pipeline_frame envMock [emailX] DEFAULT_PROMPTS (2/10) 300).1,
    (C10_pipeline_frame envMock [emailX] DEFAULT_PROMPTS (2/10) 300).2 0 emailX
      ((run_ingestion_pipeline envMock [emailX] DEFAULT_PROMPTS (2/10) 300).1.headD {})
      rfl rfl⟩

/-! ## C4/C5: the categorize interpreter -/

/-- C4 counterexample: the gateway output `fencedEmptyObj` is not valid JSON
as a raw string, yet `categorize_email` does not return the `{"text": ...}`
fallback for it — it strips the fences first, so the cleaned text parses and
the parsed empty object is returned instead. -/
theorem C4_counterexample :
    jsonLoads fencedEmptyObj = none ∧
    call_llm (envConst fencedEmptyObj)
      ("" ++ "\n\nEmail:\n" ++ bodyOrEmpty {}) (2/10) 300 = fencedEmptyObj ∧
    categorize_email (envConst fencedEmptyObj) {} "" (2/10) 300 = Json.obj [] ∧
    Json.obj [] ≠ Json.obj [("text", Json.str fencedEmptyObj)] := by
  refine ⟨rfl, rfl, rfl, ?_⟩
  intro h
  injection h with h'
  exact List.cons_ne_nil _ _ h'.symm

/-- C4 (amended): for every gateway output whose fence-stripped,
whitespace-trimmed form is not valid JSON, `categorize_email` returns the
fallback object `{"text": s}` where `s` is exactly the raw gateway output,
unmodified. -/
theorem C4_fallback_on_invalid_json (env : Env) (email : Email) (pt : String)
    (t : ℚ) (m : Int)
    (h : jsonLoads (pyStrip (pyReplace (pyReplace
        (call_llm env (pt ++ "\n\nEmail:\n" ++ bodyOrEmpty email) t m)
        "```json" "") "```" "")) = none) :
    categorize_email env email pt t m =
      Json.obj [("text", Json.str
        (call_llm env (pt ++ "\n\nEmail:\n" ++ bodyOrEmpty email) t m))] := by
  simp only [categorize_email, h]

/-- Witness for the amended C4: on gateway output `"hello"` (not JSON even
after cleaning) the fallback object is returned. -/
theorem C4_fallback_witness :
    categorize_email (envConst "hello") {} "" (2/10) 300 =
      Json.obj [("text", Json.str "hello")] :=
  C4_fallback_on_invalid_json (envConst "hello") {} "" (2/10) 300 rfl

/-- C5: for every prompt template and email body, when the gateway output is
the fenced category object, `categorize_email` strips the code-fence markers,
the strict JSON parse of the cleaned text succeeds, and the parsed object
`{"labels":[],"priority":"low","summary":"x"}` is returned verbatim with no
schema validation. -/
theorem C5_fenced_category (env : Env) (email : Email) (pt : String) (t : ℚ)
    (m : Int)
    (h : call_llm env (pt ++ "\n\nEmail:\n" ++ bodyOrEmpty email) t m =
      fencedCategoryOut) :
    jsonLoads (pyStrip (pyReplace (pyReplace fencedCategoryOut "```json" "")
        "```" "")) =
      some (Json.obj [("labels", Json.arr []), ("priority", Json.str "low"),
        ("summary", Json.str "x")]) ∧
    categorize_email env email pt t m =
      Json.obj [("labels", Json.arr []), ("priority", Json.str "low"),
        ("summary", Json.str "x")] := by
  refine ⟨rfl, ?_⟩
  simp only [categorize_email, h]
  rfl

/-- Witness for C5 at a live-mode environment that always returns the fenced
category object. -/
theorem C5_witness :
    categorize_email (envConst fencedCategoryOut) {} "" (2/10) 300 =
      Json.obj [("labels", Json.arr []), ("priority", Json.str "low"),
        ("summary", Json.str "x")] :=
  (C5_fenced_category (envConst fencedCategoryOut) {} "" (2/10) 300 rfl).2

/-! ## C6: the extract-actions interpreter -/

/-- C6: `extract_actions` behaves as the two-branch parser: on gateway output
`"[\"a\",\"b\"]"` the strict JSON-array branch returns `["a","b"]`; on
`"- a\n- b\n"` the non-blank-line fallback returns `["a","b"]` with bullet
markers and surrounding whitespace stripped; and on `""` it returns the empty
sequence. -/
theorem C6_extract_actions_cases (env1 env2 env3 : Env) (email : Email)
    (pt : String) (t : ℚ) (m : Int) :
    (call_llm env1 (pt ++ "\n\nEMAIL:\n" ++ bodyOrEmpty email) t m =
        "[\"a\",\"b\"]" →
      extract_actions env1 email pt t m =
        Json.arr [Json.str "a", Json.str "b"]) ∧
    (call_llm env2 (pt ++ "\n\nEMAIL:\n" ++ bodyOrEmpty email) t m =
        "- a\n- b\n" →
      extract_actions env2 email pt t m =
        Json.arr [Json.str "a", Json.str "b"]) ∧
    (call_llm env3 (pt ++ "\n\nEMAIL:\n" ++ bodyOrEmpty email) t m = "" →
      extract_actions env3 email pt t m = Json.arr []) := by
  refine ⟨fun h => ?_, fun h => ?_, fun h => ?_⟩ <;>
    · simp only [extract_actions, h]
      rfl

/-- Witness for C6 at live-mode environments returning each of the three
outputs. -/
theorem C6_witness :
    extract_actions (envConst "[\"a\",\"b\"]") emailX "" (2/10) 300 =
      Json.arr [Json.str "a", Json.str "b"] ∧
    extract_actions (envConst "- a\n- b\n") emailX "" (2/10) 300 =
      Json.arr [Json.str "a", Json.str "b"] ∧
    extract_actions (envConst "") emailX "" (2/10) 300 = Json.arr [] :=
  ⟨(C6_extract_actions_cases (envConst "[\"a\",\"b\"]") (envConst "- a\n- b\n")
      (envConst "") emailX "" (2/10) 300).1 rfl,
   (C6_extract_actions_cases (envConst "[\"a\",\"b\"]") (envConst "- a\n- b\n")
      (envConst "") emailX "" (2/10) 300).2.1 rfl,
   (C6_extract_actions_cases (envConst "[\"a\",\"b\"]") (envConst "- a\n- b\n")
      (envConst "") emailX "" (2/10) 300).2.2 rfl⟩

/-! ## C7: the thread context collector -/

/-- Python `join` on a nonempty list is at least as long as the list's first
element. -/
theorem pyJoin_length_ge (sep x : String) (rest : List String) :
    x.length ≤ (pyJoin sep (x :: rest)).length := by
  induction rest generalizing x with
  | nil => simp [pyJoin]
  | cons y ys ih =>
    have h := ih (x ++ sep ++ y)
    simp only [pyJoin, List.foldl_cons] at h ⊢
    calc x.length ≤ (x ++ sep ++ y).length := by
          simp [String.length_append]
          omega
      _ ≤ _ := h

/-- Every formatted thread block is a nonempty string. -/
theorem threadBlock_length_pos (msg : Email) : 0 < (threadBlock msg).length := by
  have h6 : "FROM: ".length = 6 := rfl
  simp only [threadBlock, String.length_append, h6]
  omega

/-- C7: `collect_thread_context` returns absent exactly when the thread id is
absent/empty or no inbox message carries a matching `thread_id` — never an
empty string — and otherwise returns the single string joining, for each
matching message scanned in the inbox's stored order, its block of sender,
date, and body followed by a separator line. -/
theorem C7_collect_thread_context (inbox : List Email) (tid : Option String) :
    (collect_thread_context inbox tid = none ↔
      (pyFalsyStr tid = true ∨
        inbox.filter (fun msg => msg.thread_id == tid) = [])) ∧
    (pyFalsyStr tid = false →
      ∀ msgs : List Email,
        inbox.filter (fun msg => msg.thread_id == tid) = msgs → msgs ≠ [] →
        collect_thread_context inbox tid =
          some (pyJoin "\n" (msgs.map threadBlock))) ∧
    (∀ s : String, collect_thread_context inbox tid = some s → s ≠ "") := by
  cases ht : pyFalsyStr tid with
  | true =>
    refine ⟨by simp [collect_thread_context, ht], ?_, ?_⟩
    · intro hfalse
      cases hfalse
    · intro s hs
      simp [collect_thread_context, ht] at hs
  | false =>
    refine ⟨?_, ?_, ?_⟩
    · rcases hfil : inbox.filter (fun msg => msg.thread_id == tid) with _ | ⟨a, as⟩
      · simp [collect_thread_context, ht, hfil]
      · simp [collect_thread_context, ht, hfil]
    · intro _ msgs hmsgs hne
      rcases msgs with _ | ⟨a, as⟩
      · cases hne rfl
      · simp [collect_thread_context, ht, hmsgs]
    · intro s hs
      rcases hfil : inbox.filter (fun msg => msg.thread_id == tid) with _ | ⟨a, as⟩
      · simp [collect_thread_context, ht, hfil] at hs
      · simp [collect_thread_context, ht, hfil] at hs
        have h1 := pyJoin_length_ge "\n" (threadBlock a) (as.map threadBlock)
        have h2 := threadBlock_length_pos a
        subst hs
        intro hemp
        rw [hemp] at h1
        simp at h1
        omega

/-- Witness for C7 on a three-message inbox holding a two-message thread:
the collector joins exactly the two matching blocks in stored order, the
result is not the empty string, and an unmatched thread id yields absent. -/
theorem C7_witness :
    collect_thread_context threadInbox (some "t1") =
      some (pyJoin "\n" [threadBlock tEmail1, threadBlock tEmail2]) ∧
    pyJoin "\n" [threadBlock tEmail1, threadBlock tEmail2] ≠ "" ∧
    collect_thread_context threadInbox (some "zzz") = none := by
  have hmain := (C7_collect_thread_context threadInbox (some "t1")).2.1 rfl
    [tEmail1, tEmail2] rfl (List.cons_ne_nil _ _)
  refine ⟨hmain, ?_, ?_⟩
  · exact (C7_collect_thread_context threadInbox (some "t1")).2.2 _ hmain
  · exact (C7_collect_thread_context threadInbox (some "zzz")).1.mpr (Or.inr rfl)

end EmailAgent
